import Mathlib

/-!
Verification of the NeighborRoutingExtension of the IBR-DTN daemon
(src/ibrdtn/daemon/src/routing/NeighborRoutingExtension.cpp).

The development shallowly embeds the routing decision `shouldRouteTo`,
the worker-loop dispatch of the two task variants, and the
bundle-queued event adapter.  External collaborators (neighbor
database, connection manager, policy evaluator, storage seeker,
transfer invocation) are modelled as explicit parameters; the worker
loop body is modelled as a function from the environment, the neighbor
database and one task to a trace of primitive events (lock, unlock,
storage query, transfer attempt), the updated database and a task
outcome mirroring the exception handling of the C++ code.
-/

set_option autoImplicit false

namespace NeighborRouting

/-- Endpoint identifier (EID).  Only the operations used by the routing
code are modelled: node-level comparison (`sameHost`) and full equality
(used by the event adapter's `n.getEID() != peer` test). -/
structure EID where
  node : Nat
  app : Nat
deriving DecidableEq, Repr

/-- Modelled from the spec: EID::sameHost is not under src/; the spec
says an EID "supports a same-host equality/containment test
(node-level vs full endpoint match)", so sameHost compares the node
parts. -/
def EID.sameHost (a b : EID) : Bool :=
  a.node == b.node

/-- Convergence-layer protocol identifiers (dtn::core::Node::Protocol).
Only a representative subset of the enumeration is needed. -/
inductive Protocol where
  | CONN_UNDEFINED
  | CONN_UDPIP
  | CONN_TCPIP
  | CONN_LOWPAN
deriving DecidableEq, Repr

/-- MetaBundle — the lightweight bundle descriptor: an identity used
for deduplication, the destination EID, the DESTINATION_IS_SINGLETON
flag of the primary block, and the scope-control hop count. -/
structure MetaBundle where
  ident : Nat
  destination : EID
  destinationIsSingleton : Bool
  hopcount : Nat
deriving DecidableEq, Repr

/-- NeighborDatabase::NeighborEntry — per-neighbor record: the neighbor
EID, the set of bundle identities already known to this neighbor, and
the current number of free transfer slots. -/
structure NeighborEntry where
  eid : EID
  summary : List Nat
  freeTransferSlots : Nat
deriving DecidableEq, Repr

/-- Modelled from the spec: NeighborEntry::has is not under src/; the
spec describes a "set of bundle identities already known to be held
by/forwarded toward this neighbor", so has tests membership of the
bundle's identity in that set. -/
def NeighborEntry.has (n : NeighborEntry) (m : MetaBundle) : Bool :=
  n.summary.contains m.ident

/-- NeighborEntry::getFreeTransferSlots(). -/
def NeighborEntry.getFreeTransferSlots (n : NeighborEntry) : Nat :=
  n.freeTransferSlots

/-- Modelled from the spec: NeighborDatabase::NeighborEntry::
isTransferThresholdReached is not under src/; the spec says a search
task aborts "if its free-slot threshold is not reached (e.g., zero
free slots)", so the threshold is reached exactly when at least one
free transfer slot is available. -/
def NeighborEntry.isTransferThresholdReached (n : NeighborEntry) : Bool :=
  n.freeTransferSlots > 0

/-- Errors raised by the neighbor database lookup. -/
inductive DbError where
  | EntryNotFound
deriving DecidableEq, Repr

/-- The shared Neighbor Database: entries keyed uniquely by EID, plus
the configured free-slot count given to a freshly created entry. -/
structure NeighborDatabase where
  entries : List NeighborEntry
  initFreeSlots : Nat
deriving DecidableEq, Repr

/-- Lookup of an entry by EID. -/
def NeighborDatabase.find? (db : NeighborDatabase) (eid : EID) : Option NeighborEntry :=
  db.entries.find? (fun e => e.eid == eid)

/-- Modelled from the spec: NeighborDatabase::get is not under src/;
the spec specifies "get(eid, createIfMissing: bool) -> NeighborEntry
failing with EntryNotFound if missing and not auto-created".  A created
entry starts with an empty known-bundle set and the configured
free-slot count; creation inserts it into the database. -/
def NeighborDatabase.get (db : NeighborDatabase) (eid : EID) (createIfMissing : Bool) :
    Except DbError (NeighborEntry × NeighborDatabase) :=
  match db.find? eid with
  | some e => .ok (e, db)
  | none =>
      if createIfMissing then
        let e : NeighborEntry := ⟨eid, [], db.initFreeSlots⟩
        .ok (e, ⟨db.entries ++ [e], db.initFreeSlots⟩)
      else
        .error .EntryNotFound

/-- Result of the generic bundle filter (dtn::core::BundleFilter::ACTION). -/
inductive ACTION where
  | ACCEPT
  | REJECT
  | PASS
deriving DecidableEq, Repr

/-- FilterContext for the ROUTING filter stage: peer EID, identity of
the routing extension, the bundle descriptor and the candidate
protocol. -/
structure FilterContext where
  peer : EID
  routing : String
  bundle : MetaBundle
  protocol : Protocol
deriving DecidableEq, Repr

/-- The context built by shouldRouteTo before the protocol loop
(setPeer, setRouting, setMetaBundle), completed with the candidate
protocol (setProtocol) inside the loop. -/
def filterContextFor (n : NeighborEntry) (meta : MetaBundle) (p : Protocol) : FilterContext :=
  { peer := n.eid
    routing := "NeighborRoutingExtension"
    bundle := meta
    protocol := p }

/-- The protocol loop of shouldRouteTo: iterate the protocol list in
order, evaluate the ROUTING bundle filter for each candidate protocol,
and return (true, p) for the first accepted protocol p; if none is
accepted, return (false, CONN_UNDEFINED). -/
def protocolFilterLoop (evaluate : FilterContext → ACTION) (n : NeighborEntry)
    (meta : MetaBundle) : List Protocol → Bool × Protocol
  | [] => (false, .CONN_UNDEFINED)
  | p :: rest =>
      if evaluate (filterContextFor n meta p) = .ACCEPT then
        (true, p)
      else
        protocolFilterLoop evaluate n meta rest

/-- NeighborRoutingExtension::shouldRouteTo.  The local node EID
(dtn::core::BundleCore::local) and the policy evaluator
(BundleCore::evaluate at the ROUTING stage) are passed explicitly. -/
def shouldRouteTo (localEID : EID) (evaluate : FilterContext → ACTION)
    (meta : MetaBundle) (n : NeighborEntry) (plist : List Protocol) : Bool × Protocol :=
  if meta.hopcount = 0 then
    (false, .CONN_UNDEFINED)
  else if meta.destinationIsSingleton then
    if meta.destination.sameHost localEID then
      (false, .CONN_UNDEFINED)
    else if !meta.destination.sameHost n.eid then
      (false, .CONN_UNDEFINED)
    else if n.has meta then
      (false, .CONN_UNDEFINED)
    else
      protocolFilterLoop evaluate n meta plist
  else
    (false, .CONN_UNDEFINED)

/-- The two task variants handled by the worker loop. -/
inductive Task where
  | searchNextBundle (eid : EID)
  | processBundle (bundle : MetaBundle) (origin : EID) (nexthop : EID)
deriving DecidableEq, Repr

/-- The neighbor a task is about: the search target, respectively the
next hop of a process-bundle task. -/
def Task.target : Task → EID
  | .searchNextBundle e => e
  | .processBundle _ _ n => n

/-- Primitive events emitted while the worker processes one task:
taking and releasing the neighbor-database mutex, running the storage
selection query, and attempting a transfer. -/
inductive Event where
  | lock
  | unlock
  | query
  | transferTo (peer : EID) (bundle : MetaBundle) (protocol : Protocol)
deriving DecidableEq, Repr

/-- Outcome of one transferTo invocation, as observed by the worker's
exception handlers. -/
inductive TransferOutcome where
  | ok
  | alreadyInTransit
  | noMoreTransfers
  | nodeNotAvailable
deriving DecidableEq, Repr

/-- How the worker finished one task: completed normally, or dropped
by one of the catch handlers of the run() dispatch body. -/
inductive TaskOutcome where
  | completed
  | droppedNoMoreTransfers
  | droppedEntryNotFound
  | droppedNodeNotAvailable
  | droppedNoBundleFound
  | droppedNoRouteKnown
  | droppedAlreadyInTransit
deriving DecidableEq, Repr

/-- The external collaborators of the worker: the local EID, the policy
evaluator, the connection manager (supported protocols and current
neighbor set), the bundle storage contents in the seeker's natural
order, and the result each transfer attempt would produce. -/
structure Env where
  localEID : EID
  evaluate : FilterContext → ACTION
  getSupportedProtocols : EID → List Protocol
  neighbors : List EID
  storage : List MetaBundle
  transferResult : EID → MetaBundle → Protocol → TransferOutcome

/-- Modelled from the spec: the storage seeker (BundleSeeker::get) is
not under src/; the spec says the selection query "accepts a selector
object exposing limit() and consider(candidate)" and "returns up to
limit() accepted candidates".  Candidates are judged by the
BundleFilter's addIfSelected, which runs shouldRouteTo and records the
pair (bundle, chosen protocol) into the RoutingResult. -/
def seekerGet (limit : Nat) (sel : MetaBundle → Bool × Protocol) :
    List MetaBundle → List (MetaBundle × Protocol)
  | [] => []
  | m :: rest =>
      if limit = 0 then
        []
      else
        let r := sel m
        if r.1 then
          (m, r.2) :: seekerGet (limit - 1) sel rest
        else
          seekerGet limit sel rest

/-- The transfer phase of a search task: for each pair in the routing
result attempt transferTo; an AlreadyInTransit failure is caught in the
loop body and the loop continues with the next candidate; any other
transfer failure propagates to the outer catch handlers, dropping the
task (remaining candidates are not attempted). -/
def transferLoop (env : Env) (peer : EID) :
    List (MetaBundle × Protocol) → List Event × TaskOutcome
  | [] => ([], .completed)
  | (m, p) :: rest =>
      match env.transferResult peer m p with
      | .ok =>
          let r := transferLoop env peer rest
          (.transferTo peer m p :: r.1, r.2)
      | .alreadyInTransit =>
          let r := transferLoop env peer rest
          (.transferTo peer m p :: r.1, r.2)
      | .noMoreTransfers => ([.transferTo peer m p], .droppedNoMoreTransfers)
      | .nodeNotAvailable => ([.transferTo peer m p], .droppedNodeNotAvailable)

/-- The SearchNextBundleTask branch of NeighborRoutingExtension::run.
Inside the locked section: look up the neighbor entry with
createIfMissing = true, raise NoMoreTransfersAvailable if the free-slot
threshold is not reached, build the protocol list and the bundle
filter, and run the bounded storage query.  The scoped MutexLock
releases the lock on every exit path, including exception unwinding,
so every trace contains a matching unlock.  Outside the lock the
transfer loop runs over the routing result. -/
def processSearchTask (env : Env) (db : NeighborDatabase) (eid : EID) :
    List Event × NeighborDatabase × TaskOutcome :=
  match db.get eid true with
  | .error .EntryNotFound => ([.lock, .unlock], db, .droppedEntryNotFound)
  | .ok (entry, db1) =>
      if !entry.isTransferThresholdReached then
        ([.lock, .unlock], db1, .droppedNoMoreTransfers)
      else
        let plist := env.getSupportedProtocols entry.eid
        let sel := fun m => shouldRouteTo env.localEID env.evaluate m entry plist
        let result := seekerGet entry.getFreeTransferSlots sel env.storage
        if result.isEmpty then
          ([.lock, .query, .unlock], db1, .droppedNoBundleFound)
        else
          let tr := transferLoop env eid result
          ([.lock, .query, .unlock] ++ tr.1, db1, tr.2)

/-- The ProcessBundleTask branch of NeighborRoutingExtension::run.
The protocol list is computed before the lock; inside the locked
section the entry is looked up with createIfMissing = true and
shouldRouteTo is evaluated once, raising NoRouteKnown (caught silently)
on rejection; on acceptance the transfer runs outside the lock, its
failures absorbed by the catch handlers. -/
def processBundleTask (env : Env) (db : NeighborDatabase)
    (bundle : MetaBundle) (origin : EID) (nexthop : EID) :
    List Event × NeighborDatabase × TaskOutcome :=
  let _ := origin
  let plist := env.getSupportedProtocols nexthop
  match db.get nexthop true with
  | .error .EntryNotFound => ([.lock, .unlock], db, .droppedEntryNotFound)
  | .ok (entry, db1) =>
      let ret := shouldRouteTo env.localEID env.evaluate bundle entry plist
      if !ret.1 then
        ([.lock, .unlock], db1, .droppedNoRouteKnown)
      else
        match env.transferResult nexthop bundle ret.2 with
        | .ok =>
            ([.lock, .unlock, .transferTo nexthop bundle ret.2], db1, .completed)
        | .alreadyInTransit =>
            ([.lock, .unlock, .transferTo nexthop bundle ret.2], db1, .droppedAlreadyInTransit)
        | .noMoreTransfers =>
            ([.lock, .unlock, .transferTo nexthop bundle ret.2], db1, .droppedNoMoreTransfers)
        | .nodeNotAvailable =>
            ([.lock, .unlock, .transferTo nexthop bundle ret.2], db1, .droppedNodeNotAvailable)

/-- One iteration of the worker's dispatch body, over both task
variants. -/
def processTask (env : Env) (db : NeighborDatabase) : Task → List Event × NeighborDatabase × TaskOutcome
  | .searchNextBundle eid => processSearchTask env db eid
  | .processBundle b o n => processBundleTask env db b o n

/-- NeighborRoutingExtension::eventDataChanged — enqueue a search task
for the changed neighbor. -/
def eventDataChanged (peer : EID) : List Task :=
  [.searchNextBundle peer]

/-- NeighborRoutingExtension::eventBundleQueued — for every currently
known neighbor whose EID differs from the peer the bundle arrived
from, enqueue a ProcessBundleTask(bundle, origin = peer, nexthop =
neighbor). -/
def eventBundleQueued (env : Env) (peer : EID) (meta : MetaBundle) : List Task :=
  env.neighbors.filterMap fun n =>
    if n = peer then none else some (Task.processBundle meta peer n)

/-- Checks that, starting from the given lock depth, every transferTo
event of the trace happens while the lock depth is zero. -/
def transfersUnlocked : Nat → List Event → Bool
  | _, [] => true
  | d, .lock :: tr => transfersUnlocked (d + 1) tr
  | d, .unlock :: tr => transfersUnlocked (d - 1) tr
  | d, .query :: tr => transfersUnlocked d tr
  | d, .transferTo _ _ _ :: tr => d == 0 && transfersUnlocked d tr

/-! ### Helper lemmas about the routing decision -/

theorem shouldRouteTo_pass (localEID : EID) (evaluate : FilterContext → ACTION)
    (meta : MetaBundle) (n : NeighborEntry) (plist : List Protocol)
    (hhc : meta.hopcount ≠ 0) (hs : meta.destinationIsSingleton = true)
    (hl : meta.destination.sameHost localEID = false)
    (hn : meta.destination.sameHost n.eid = true)
    (hk : n.has meta = false) :
    shouldRouteTo localEID evaluate meta n plist = protocolFilterLoop evaluate n meta plist := by
  simp [shouldRouteTo, hhc, hs, hl, hn, hk]

theorem protocolFilterLoop_first_accept (evaluate : FilterContext → ACTION)
    (n : NeighborEntry) (meta : MetaBundle)
    (l₁ : List Protocol) (p : Protocol) (l₂ : List Protocol)
    (hrej : ∀ q ∈ l₁, evaluate (filterContextFor n meta q) ≠ ACTION.ACCEPT)
    (hacc : evaluate (filterContextFor n meta p) = ACTION.ACCEPT) :
    protocolFilterLoop evaluate n meta (l₁ ++ p :: l₂) = (true, p) := by
  induction l₁ with
  | nil => simp [protocolFilterLoop, hacc]
  | cons q l ih =>
      have hq := hrej q (by simp)
      simpa [protocolFilterLoop, hq] using ih (fun r hr => hrej r (by simp [hr]))

theorem protocolFilterLoop_no_accept (evaluate : FilterContext → ACTION)
    (n : NeighborEntry) (meta : MetaBundle) (plist : List Protocol)
    (h : ∀ q ∈ plist, evaluate (filterContextFor n meta q) ≠ ACTION.ACCEPT) :
    protocolFilterLoop evaluate n meta plist = (false, Protocol.CONN_UNDEFINED) := by
  induction plist with
  | nil => simp [protocolFilterLoop]
  | cons q l ih =>
      have hq := h q (by simp)
      simpa [protocolFilterLoop, hq] using ih (fun r hr => h r (by simp [hr]))

/-! ### Claim theorems about shouldRouteTo -/

/-- C1: protocol selection in shouldRouteTo is first-accept-wins — for
a bundle that passes the hop-count, singleton-destination and
deduplication checks, the protocol list is iterated in its given order
and (true, p) is returned for the first protocol p the policy
evaluator accepts; if the evaluator accepts no protocol of the list
(in particular for the empty list), the result is "do not forward". -/
theorem shouldRouteTo_first_accept_wins (localEID : EID) (evaluate : FilterContext → ACTION)
    (meta : MetaBundle) (n : NeighborEntry)
    (hhc : meta.hopcount ≠ 0) (hs : meta.destinationIsSingleton = true)
    (hl : meta.destination.sameHost localEID = false)
    (hn : meta.destination.sameHost n.eid = true)
    (hk : n.has meta = false) :
    (∀ (l₁ : List Protocol) (p : Protocol) (l₂ : List Protocol),
        (∀ q ∈ l₁, evaluate (filterContextFor n meta q) ≠ ACTION.ACCEPT) →
        evaluate (filterContextFor n meta p) = ACTION.ACCEPT →
        shouldRouteTo localEID evaluate meta n (l₁ ++ p :: l₂) = (true, p)) ∧
    (∀ plist : List Protocol,
        (∀ q ∈ plist, evaluate (filterContextFor n meta q) ≠ ACTION.ACCEPT) →
        shouldRouteTo localEID evaluate meta n plist = (false, Protocol.CONN_UNDEFINED)) := by
  constructor
  · intro l₁ p l₂ hrej hacc
    rw [shouldRouteTo_pass localEID evaluate meta n _ hhc hs hl hn hk]
    exact protocolFilterLoop_first_accept evaluate n meta l₁ p l₂ hrej hacc
  · intro plist hnone
    rw [shouldRouteTo_pass localEID evaluate meta n _ hhc hs hl hn hk]
    exact protocolFilterLoop_no_accept evaluate n meta plist hnone

/-- Witness for C1: with protocols [UDP, TCP, LOWPAN] where the
evaluator rejects UDP and accepts both TCP and LOWPAN, the result is
(true, TCP). -/
theorem shouldRouteTo_first_accept_wins_witness :
    shouldRouteTo ⟨1, 0⟩
      (fun c => if c.protocol = Protocol.CONN_UDPIP then ACTION.REJECT else ACTION.ACCEPT)
      ⟨7, ⟨2, 5⟩, true, 3⟩ ⟨⟨2, 1⟩, [], 1⟩
      [Protocol.CONN_UDPIP, Protocol.CONN_TCPIP, Protocol.CONN_LOWPAN]
      = (true, Protocol.CONN_TCPIP) :=
  (shouldRouteTo_first_accept_wins ⟨1, 0⟩
      (fun c => if c.protocol = Protocol.CONN_UDPIP then ACTION.REJECT else ACTION.ACCEPT)
      ⟨7, ⟨2, 5⟩, true, 3⟩ ⟨⟨2, 1⟩, [], 1⟩
      (by decide) (by decide) (by decide) (by decide) (by decide)).1
    [Protocol.CONN_UDPIP] Protocol.CONN_TCPIP [Protocol.CONN_LOWPAN]
    (by decide) (by decide)

/-- C2: shouldRouteTo forwards only singleton bundles addressed to the
neighbor — it returns "do not forward" whenever the destination is not
marked singleton, or the destination resolves to the local node, or
the destination does not resolve to the neighbor's node identity; this
holds for every neighbor entry, protocol list and evaluator. -/
theorem shouldRouteTo_only_singleton_to_neighbor (localEID : EID)
    (evaluate : FilterContext → ACTION) (meta : MetaBundle) (n : NeighborEntry)
    (plist : List Protocol)
    (h : meta.destinationIsSingleton = false ∨
         meta.destination.sameHost localEID = true ∨
         meta.destination.sameHost n.eid = false) :
    shouldRouteTo localEID evaluate meta n plist = (false, Protocol.CONN_UNDEFINED) := by
  rcases h with h | h | h <;>
    by_cases hc : meta.hopcount = 0 <;>
    cases hs : meta.destinationIsSingleton <;>
    cases hl : meta.destination.sameHost localEID <;>
    simp_all [shouldRouteTo]

/-- Witness for C2: a non-singleton bundle is rejected. -/
theorem shouldRouteTo_only_singleton_to_neighbor_witness :
    shouldRouteTo ⟨1, 0⟩ (fun _ => ACTION.ACCEPT) ⟨7, ⟨2, 5⟩, false, 3⟩
      ⟨⟨2, 1⟩, [], 1⟩ [Protocol.CONN_TCPIP]
      = (false, Protocol.CONN_UNDEFINED) :=
  shouldRouteTo_only_singleton_to_neighbor ⟨1, 0⟩ (fun _ => ACTION.ACCEPT)
    ⟨7, ⟨2, 5⟩, false, 3⟩ ⟨⟨2, 1⟩, [], 1⟩ [Protocol.CONN_TCPIP] (Or.inl (by decide))

/-- C3: every bundle whose hop count is zero is rejected with the
UNDEFINED protocol, for every neighbor entry and protocol list, and
the result does not depend on the policy evaluator (it is never
consulted). -/
theorem shouldRouteTo_hopcount_zero (localEID : EID) (evaluate : FilterContext → ACTION)
    (meta : MetaBundle) (n : NeighborEntry) (plist : List Protocol)
    (h : meta.hopcount = 0) :
    shouldRouteTo localEID evaluate meta n plist = (false, Protocol.CONN_UNDEFINED) ∧
    ∀ evaluate₂ : FilterContext → ACTION,
      shouldRouteTo localEID evaluate₂ meta n plist
        = shouldRouteTo localEID evaluate meta n plist := by
  constructor
  · simp [shouldRouteTo, h]
  · intro evaluate₂
    simp [shouldRouteTo, h]

/-- Witness for C3: a hop-count-zero bundle is rejected even though the
evaluator would accept every protocol. -/
theorem shouldRouteTo_hopcount_zero_witness :
    shouldRouteTo ⟨1, 0⟩ (fun _ => ACTION.ACCEPT) ⟨7, ⟨2, 5⟩, true, 0⟩
      ⟨⟨2, 1⟩, [], 1⟩ [Protocol.CONN_TCPIP]
      = (false, Protocol.CONN_UNDEFINED) :=
  (shouldRouteTo_hopcount_zero ⟨1, 0⟩ (fun _ => ACTION.ACCEPT) ⟨7, ⟨2, 5⟩, true, 0⟩
    ⟨⟨2, 1⟩, [], 1⟩ [Protocol.CONN_TCPIP] (by decide)).1

/-- C4: deduplication overrides policy — a bundle that passes the
hop-count and singleton checks but whose identity is in the neighbor's
known-bundle set is rejected for every evaluator and protocol list,
and every one of any number of repetitions of the check yields the
same rejection. -/
theorem shouldRouteTo_known_bundle_rejected (localEID : EID) (evaluate : FilterContext → ACTION)
    (meta : MetaBundle) (n : NeighborEntry) (plist : List Protocol)
    (hhc : meta.hopcount ≠ 0) (hs : meta.destinationIsSingleton = true)
    (hl : meta.destination.sameHost localEID = false)
    (hn : meta.destination.sameHost n.eid = true)
    (hk : n.has meta = true) :
    shouldRouteTo localEID evaluate meta n plist = (false, Protocol.CONN_UNDEFINED) ∧
    ∀ k : Nat, ∀ r ∈ List.replicate k (shouldRouteTo localEID evaluate meta n plist),
      r = (false, Protocol.CONN_UNDEFINED) := by
  have hmain : shouldRouteTo localEID evaluate meta n plist
      = (false, Protocol.CONN_UNDEFINED) := by
    simp [shouldRouteTo, hhc, hs, hl, hn, hk]
  refine ⟨hmain, fun k r hr => ?_⟩
  rw [List.eq_of_mem_replicate hr, hmain]

/-- Witness for C4: a bundle whose identity 7 is in the neighbor's
known set is rejected although the evaluator accepts everything. -/
theorem shouldRouteTo_known_bundle_rejected_witness :
    shouldRouteTo ⟨1, 0⟩ (fun _ => ACTION.ACCEPT) ⟨7, ⟨2, 5⟩, true, 3⟩
      ⟨⟨2, 1⟩, [7], 1⟩ [Protocol.CONN_TCPIP]
      = (false, Protocol.CONN_UNDEFINED) :=
  (shouldRouteTo_known_bundle_rejected ⟨1, 0⟩ (fun _ => ACTION.ACCEPT) ⟨7, ⟨2, 5⟩, true, 3⟩
    ⟨⟨2, 1⟩, [7], 1⟩ [Protocol.CONN_TCPIP]
    (by decide) (by decide) (by decide) (by decide) (by decide)).1

/-! ### Helper lemmas about the worker loop -/

/-- A concrete sample environment used by witnesses. -/
def sampleEnv : Env where
  localEID := ⟨1, 0⟩
  evaluate := fun _ => ACTION.ACCEPT
  getSupportedProtocols := fun _ => [Protocol.CONN_TCPIP]
  neighbors := [⟨2, 1⟩, ⟨3, 1⟩]
  storage := [⟨7, ⟨2, 5⟩, true, 3⟩]
  transferResult := fun _ _ _ => TransferOutcome.ok

theorem get_create_of_find_none (db : NeighborDatabase) (eid : EID)
    (h : db.find? eid = none) :
    db.get eid true = Except.ok (⟨eid, [], db.initFreeSlots⟩,
      ⟨db.entries ++ [⟨eid, [], db.initFreeSlots⟩], db.initFreeSlots⟩) := by
  unfold NeighborDatabase.get
  rw [h]
  rfl

theorem get_create_isSome (db : NeighborDatabase) (eid : EID) :
    ∃ entry db1, db.get eid true = Except.ok (entry, db1) ∧
      (db1.find? eid).isSome = true := by
  cases hfind : db.find? eid with
  | some e =>
      refine ⟨e, db, ?_, by simp [hfind]⟩
      unfold NeighborDatabase.get
      rw [hfind]
  | none =>
      refine ⟨_, _, get_create_of_find_none db eid hfind, ?_⟩
      simp [NeighborDatabase.find?]

theorem transferLoop_outcome_ne_entryNotFound (env : Env) (peer : EID)
    (l : List (MetaBundle × Protocol)) :
    ((transferLoop env peer l).2 == TaskOutcome.droppedEntryNotFound) = false := by
  induction l with
  | nil => simp [transferLoop]
  | cons c rest ih =>
      obtain ⟨m, p⟩ := c
      cases hc : env.transferResult peer m p <;> simp [transferLoop, hc, ih]

theorem processTask_find_isSome (env : Env) (db : NeighborDatabase) (t : Task) :
    (((processTask env db t).2.1).find? t.target).isSome = true := by
  cases t with
  | searchNextBundle eid =>
      obtain ⟨entry, db1, hget, hsome⟩ := get_create_isSome db eid
      simp only [processTask, processSearchTask, Task.target, hget]
      split
      · exact hsome
      · split
        · exact hsome
        · exact hsome
  | processBundle b o n =>
      obtain ⟨entry, db1, hget, hsome⟩ := get_create_isSome db n
      simp only [processTask, processBundleTask, Task.target, hget]
      split
      · exact hsome
      · split <;> exact hsome

theorem processTask_outcome_ne_entryNotFound (env : Env) (db : NeighborDatabase) (t : Task) :
    ((processTask env db t).2.2 == TaskOutcome.droppedEntryNotFound) = false := by
  cases t with
  | searchNextBundle eid =>
      obtain ⟨entry, db1, hget, _⟩ := get_create_isSome db eid
      simp only [processTask, processSearchTask, Task.target, hget]
      split
      · rfl
      · split
        · rfl
        · exact transferLoop_outcome_ne_entryNotFound env eid _
  | processBundle b o n =>
      obtain ⟨entry, db1, hget, _⟩ := get_create_isSome db n
      simp only [processTask, processBundleTask, Task.target, hget]
      split
      · rfl
      · split <;> rfl

theorem processTask_db_of_find_none (env : Env) (db : NeighborDatabase) (t : Task)
    (h : db.find? t.target = none) :
    (processTask env db t).2.1
      = ⟨db.entries ++ [⟨t.target, [], db.initFreeSlots⟩], db.initFreeSlots⟩ := by
  have hget := get_create_of_find_none db t.target h
  cases t with
  | searchNextBundle eid =>
      simp only [Task.target] at hget
      simp only [processTask, processSearchTask, hget]
      split
      · rfl
      · split <;> rfl
  | processBundle b o n =>
      simp only [Task.target] at hget
      simp only [processTask, processBundleTask, hget]
      split
      · rfl
      · split <;> rfl

theorem transferLoop_unlocked (env : Env) (peer : EID)
    (l : List (MetaBundle × Protocol)) :
    transfersUnlocked 0 (transferLoop env peer l).1 = true := by
  induction l with
  | nil => simp [transferLoop, transfersUnlocked]
  | cons c rest ih =>
      obtain ⟨m, p⟩ := c
      cases hc : env.transferResult peer m p <;>
        simp [transferLoop, hc, transfersUnlocked, ih]

/-! ### Claim theorems about the worker loop -/

/-- C5 (amended): when the worker processes a task whose target
neighbor is unknown to the Neighbor Database, the entry lookup does
not fail — since both branches look up with createIfMissing = true,
the entry is auto-created and processing continues, so the task's
outcome is never the dropped-with-EntryNotFound one; this holds for
both SearchNextBundleTask and ProcessBundleTask. -/
theorem processTask_unknown_neighbor_creates_entry (env : Env) (db : NeighborDatabase)
    (t : Task) (h : db.find? t.target = none) :
    (processTask env db t).2.1
      = ⟨db.entries ++ [⟨t.target, [], db.initFreeSlots⟩], db.initFreeSlots⟩ ∧
    ((processTask env db t).2.2 == TaskOutcome.droppedEntryNotFound) = false :=
  ⟨processTask_db_of_find_none env db t h, processTask_outcome_ne_entryNotFound env db t⟩

/-- Witness for C5 (amended): a search task for a neighbor absent from
an empty database creates the entry and is dropped with
NoMoreTransfersAvailable, not with EntryNotFound. -/
theorem processTask_unknown_neighbor_creates_entry_witness :
    (processTask sampleEnv ⟨[], 0⟩ (Task.searchNextBundle ⟨2, 1⟩)).2.1
      = ⟨[⟨⟨2, 1⟩, [], 0⟩], 0⟩ ∧
    ((processTask sampleEnv ⟨[], 0⟩ (Task.searchNextBundle ⟨2, 1⟩)).2.2
      == TaskOutcome.droppedEntryNotFound) = false :=
  processTask_unknown_neighbor_creates_entry sampleEnv ⟨[], 0⟩
    (Task.searchNextBundle ⟨2, 1⟩) rfl

/-- Counterexample for C5 as stated: with an empty neighbor database
the target of either task variant is unknown, yet the search task is
dropped with NoMoreTransfersAvailable (not EntryNotFound) and the
process task completes a transfer; in both cases the entry now exists
in the database. -/
theorem processTask_unknown_neighbor_counterexample :
    (⟨[], 0⟩ : NeighborDatabase).find? ⟨2, 1⟩ = none ∧
    (processTask sampleEnv ⟨[], 0⟩ (Task.searchNextBundle ⟨2, 1⟩)).2.2
      = TaskOutcome.droppedNoMoreTransfers ∧
    (processTask sampleEnv ⟨[], 0⟩
        (Task.processBundle ⟨7, ⟨2, 5⟩, true, 3⟩ ⟨9, 9⟩ ⟨2, 1⟩)).2.2
      = TaskOutcome.completed ∧
    ((processTask sampleEnv ⟨[], 0⟩ (Task.searchNextBundle ⟨2, 1⟩)).2.1.find? ⟨2, 1⟩).isSome
      = true ∧
    ((processTask sampleEnv ⟨[], 0⟩
        (Task.processBundle ⟨7, ⟨2, 5⟩, true, 3⟩ ⟨9, 9⟩ ⟨2, 1⟩)).2.1.find? ⟨2, 1⟩).isSome
      = true :=
  ⟨rfl, rfl, rfl, rfl, rfl⟩

/-- C6: a SearchNextBundleTask for a neighbor whose free-slot
threshold is not reached is aborted inside the locked section with
NoMoreTransfersAvailable, before the storage query runs: the trace is
exactly lock followed by unlock (no query event, no transfer
attempts), the database is unchanged, and the outcome is the dropped
task. -/
theorem searchTask_threshold_not_reached (env : Env) (db : NeighborDatabase) (eid : EID)
    (entry : NeighborEntry) (hfind : db.find? eid = some entry)
    (hth : entry.isTransferThresholdReached = false) :
    processSearchTask env db eid
      = ([Event.lock, Event.unlock], db, TaskOutcome.droppedNoMoreTransfers) := by
  have hget : db.get eid true = Except.ok (entry, db) := by
    unfold NeighborDatabase.get
    rw [hfind]
  simp [processSearchTask, hget, hth]

/-- Witness for C6: a neighbor entry with zero free transfer slots. -/
theorem searchTask_threshold_not_reached_witness :
    processSearchTask sampleEnv ⟨[⟨⟨2, 1⟩, [], 0⟩], 5⟩ ⟨2, 1⟩
      = ([Event.lock, Event.unlock], ⟨[⟨⟨2, 1⟩, [], 0⟩], 5⟩,
         TaskOutcome.droppedNoMoreTransfers) :=
  searchTask_threshold_not_reached sampleEnv ⟨[⟨⟨2, 1⟩, [], 0⟩], 5⟩ ⟨2, 1⟩
    ⟨⟨2, 1⟩, [], 0⟩ rfl rfl

/-- C7: in the transfer phase of a search task, an AlreadyInTransit
failure on one candidate is swallowed and does not prevent the
attempts for the remaining candidates — when every candidate's
transfer reports either success or AlreadyInTransit, the trace
contains a transfer attempt for every candidate of the result list, in
order. -/
theorem transferLoop_attempts_all_candidates (env : Env) (peer : EID)
    (cands : List (MetaBundle × Protocol))
    (h : ∀ c ∈ cands, env.transferResult peer c.1 c.2 = TransferOutcome.ok ∨
         env.transferResult peer c.1 c.2 = TransferOutcome.alreadyInTransit) :
    (transferLoop env peer cands).1
      = cands.map (fun c => Event.transferTo peer c.1 c.2) := by
  induction cands with
  | nil => simp [transferLoop]
  | cons c rest ih =>
      obtain ⟨m, p⟩ := c
      have hrest := ih (fun d hd => h d (List.mem_cons_of_mem _ hd))
      rcases h ⟨m, p⟩ (by simp) with hc | hc <;> simp [transferLoop, hc, hrest]

/-- Witness for C7: the first candidate fails with AlreadyInTransit,
yet both candidates are attempted. -/
theorem transferLoop_attempts_all_candidates_witness :
    (transferLoop
      { localEID := ⟨1, 0⟩
        evaluate := fun _ => ACTION.ACCEPT
        getSupportedProtocols := fun _ => [Protocol.CONN_TCPIP]
        neighbors := []
        storage := []
        transferResult := fun _ m _ =>
          if m.ident = 7 then TransferOutcome.alreadyInTransit else TransferOutcome.ok }
      ⟨2, 1⟩
      [(⟨7, ⟨2, 5⟩, true, 3⟩, Protocol.CONN_TCPIP),
       (⟨8, ⟨2, 6⟩, true, 3⟩, Protocol.CONN_TCPIP)]).1
      = [Event.transferTo ⟨2, 1⟩ ⟨7, ⟨2, 5⟩, true, 3⟩ Protocol.CONN_TCPIP,
         Event.transferTo ⟨2, 1⟩ ⟨8, ⟨2, 6⟩, true, 3⟩ Protocol.CONN_TCPIP] :=
  transferLoop_attempts_all_candidates
    { localEID := ⟨1, 0⟩
      evaluate := fun _ => ACTION.ACCEPT
      getSupportedProtocols := fun _ => [Protocol.CONN_TCPIP]
      neighbors := []
      storage := []
      transferResult := fun _ m _ =>
        if m.ident = 7 then TransferOutcome.alreadyInTransit else TransferOutcome.ok }
    ⟨2, 1⟩
    [(⟨7, ⟨2, 5⟩, true, 3⟩, Protocol.CONN_TCPIP),
     (⟨8, ⟨2, 6⟩, true, 3⟩, Protocol.CONN_TCPIP)]
    (by decide)

/-- C9: in every iteration of the worker loop and for both task
variants, every transfer attempt in the emitted trace happens at lock
depth zero — the neighbor-database lock is never held during a
transferTo invocation. -/
theorem processTask_lock_released_before_transfer (env : Env) (db : NeighborDatabase)
    (t : Task) :
    transfersUnlocked 0 (processTask env db t).1 = true := by
  cases t with
  | searchNextBundle eid =>
      simp only [processTask, processSearchTask]
      split
      · simp [transfersUnlocked]
      · split
        · simp [transfersUnlocked]
        · split
          · simp [transfersUnlocked]
          · simp [transfersUnlocked, transferLoop_unlocked]
  | processBundle b o n =>
      simp only [processTask, processBundleTask]
      split
      · simp [transfersUnlocked]
      · split
        · simp [transfersUnlocked]
        · split <;> simp [transfersUnlocked]

/-- C10: both worker branches look up the neighbor entry with
createIfMissing set to true, so after processing any task an entry for
the task's target EID exists in the Neighbor Database, and the
EntryNotFound error branch is never taken by the worker's own lookup:
no task outcome is the dropped-with-EntryNotFound one. -/
theorem processTask_entry_exists_after (env : Env) (db : NeighborDatabase) (t : Task) :
    (((processTask env db t).2.1).find? t.target).isSome = true ∧
    ((processTask env db t).2.2 == TaskOutcome.droppedEntryNotFound) = false :=
  ⟨processTask_find_isSome env db t, processTask_outcome_ne_entryNotFound env db t⟩

/-! ### The bundle-queued event adapter -/

theorem eventBundleQueued_eq_map_filter (l : List EID) (peer : EID) (meta : MetaBundle) :
    l.filterMap (fun n => if n = peer then none else some (Task.processBundle meta peer n))
      = (l.filter (fun n => n != peer)).map (fun n => Task.processBundle meta peer n) := by
  induction l with
  | nil => rfl
  | cons a l ih => by_cases ha : a = peer <;> simp [ha, ih]

theorem processBundle_inj (peer : EID) (meta : MetaBundle) :
    Function.Injective (fun n => Task.processBundle meta peer n) := by
  intro x y h
  simpa using h

/-- C8: on a bundle queued towards peer P, the event adapter enqueues
exactly one ProcessBundleTask(bundle, origin = P, nexthop = N) for
every currently known neighbor N whose EID differs from P, and no task
whose next hop is P itself: the task list is precisely the
peer-filtered neighbor list mapped to process tasks. -/
theorem eventBundleQueued_one_task_per_other_neighbor (env : Env) (peer : EID)
    (meta : MetaBundle) (hnodup : env.neighbors.Nodup) :
    eventBundleQueued env peer meta
      = (env.neighbors.filter (fun n => n != peer)).map
          (fun n => Task.processBundle meta peer n) ∧
    (∀ n ∈ env.neighbors, n ≠ peer →
      (eventBundleQueued env peer meta).count (Task.processBundle meta peer n) = 1) ∧
    (∀ t ∈ eventBundleQueued env peer meta, Task.target t ≠ peer) := by
  have heq : eventBundleQueued env peer meta
      = (env.neighbors.filter (fun n => n != peer)).map
          (fun n => Task.processBundle meta peer n) := by
    unfold eventBundleQueued
    exact eventBundleQueued_eq_map_filter env.neighbors peer meta
  refine ⟨heq, ?_, ?_⟩
  · intro n hn hne
    rw [heq, List.count_map_of_injective _ _ (processBundle_inj peer meta)]
    exact List.count_eq_one_of_mem (hnodup.filter _)
      (List.mem_filter.mpr ⟨hn, by simp [hne]⟩)
  · intro t ht
    rw [heq] at ht
    simp only [List.mem_map, List.mem_filter] at ht
    obtain ⟨n, ⟨_, hne⟩, rfl⟩ := ht
    simpa [Task.target] using hne

/-- The concrete environment of the C8 scenario: known neighbors X, Y,
Z. -/
def envXYZ : Env where
  localEID := ⟨1, 0⟩
  evaluate := fun _ => ACTION.ACCEPT
  getSupportedProtocols := fun _ => []
  neighbors := [⟨2, 1⟩, ⟨3, 1⟩, ⟨4, 1⟩]
  storage := []
  transferResult := fun _ _ _ => TransferOutcome.ok

/-- Witness for C8: with known neighbors X, Y, Z and peer X, exactly
the two tasks targeting Y and Z are enqueued, and the task for Y
occurs exactly once. -/
theorem eventBundleQueued_one_task_per_other_neighbor_witness :
    eventBundleQueued envXYZ ⟨2, 1⟩ ⟨7, ⟨9, 9⟩, true, 3⟩
      = [Task.processBundle ⟨7, ⟨9, 9⟩, true, 3⟩ ⟨2, 1⟩ ⟨3, 1⟩,
         Task.processBundle ⟨7, ⟨9, 9⟩, true, 3⟩ ⟨2, 1⟩ ⟨4, 1⟩] ∧
    (eventBundleQueued envXYZ ⟨2, 1⟩ ⟨7, ⟨9, 9⟩, true, 3⟩).count
      (Task.processBundle ⟨7, ⟨9, 9⟩, true, 3⟩ ⟨2, 1⟩ ⟨3, 1⟩) = 1 := by
  have h := eventBundleQueued_one_task_per_other_neighbor envXYZ ⟨2, 1⟩
    ⟨7, ⟨9, 9⟩, true, 3⟩ (by decide)
  exact ⟨h.1, h.2.1 ⟨3, 1⟩ (by decide) (by decide)⟩

end NeighborRouting
